import Mathlib

/-!
Verification of the `micro` API gateway dispatch core (`src/api/api.go`).

This file gives a shallow embedding of the package-level configuration, the
`run` startup function and the route registrations it performs, and proves
the spec's claims about them.  Machine-external collaborators (the gorilla
mux matcher, the go-micro server, the cloudflare DNS client) appear as
abstract data: their construction parameters are recorded exactly as the
source passes them, and their outcomes (errors from `Start`/`Run`/`Stop`,
from `NewDNSProviderConfig`, from `TLSConfig`) are inputs to the model.
-/

namespace MicroApi

/-! ### Go string primitives -/

/-- `strings.TrimSuffix(s, sfx)` on character lists: removes one trailing
occurrence of `sfx` when present, otherwise returns `s` unchanged. -/
def goTrimSuffixL (s sfx : List Char) : List Char :=
  if sfx.isSuffixOf s then s.take (s.length - sfx.length) else s

/-- `strings.TrimSuffix` on `String`. -/
def goTrimSuffix (s sfx : String) : String :=
  ⟨goTrimSuffixL s.data sfx.data⟩

/-! ### Package-level defaults (lines 45-60 of api.go) -/

def defaultName : String := "go.micro.api"
def defaultAddress : String := ":8080"
def defaultHandler : String := "meta"
def defaultResolver : String := "micro"
def RPCPath : String := "/rpc"
def APIPath : String := "/"
def ProxyPath : String := "/\x7bservice:[a-zA-Z0-9]+\x7d"
def defaultNamespace : String := "go.micro"
def defaultType : String := "api"
def defaultACMEProvider : String := "autocert"
def defaultACMEChallengeProvider : String := "cloudflare"

/-- The named CA constant `acme.LetsEncryptProductionCA` from the acme
package; its concrete URL is outside this repository, so it is modelled as
an abstract tag. -/
def letsEncryptProductionCA : String := "acme.LetsEncryptProductionCA"

/-! ### CLI context, environment and external outcomes -/

/-- The CLI flag values `run` reads from its `cli.Context`, plus the
package variable `ACMEChallengeProvider` (which no flag in this file sets)
and `ctx.App.Version`.  An empty string means the flag was not supplied
(the source tests `len(ctx.String(...)) > 0`). -/
structure CliCtx where
  server_name : String := ""
  address : String := ""
  handlerFlag : String := ""
  resolverFlag : String := ""
  /-- `ctx.String("enable_rpc")`: `none` when unset, otherwise the parsed
  `ctx.Bool("enable_rpc")` value. -/
  enable_rpc : Option Bool := none
  acme_provider : String := ""
  typeFlag : String := ""
  namespaceFlag : String := ""
  enable_acme : Bool := false
  enable_tls : Bool := false
  enable_cors : Bool := false
  enable_stats : Bool := false
  /-- `helper.ACMEHosts(ctx)`. -/
  acmeHosts : List String := []
  /-- Current value of the package variable `ACMEChallengeProvider`. -/
  acmeChallengeProvider : String := defaultACMEChallengeProvider
  /-- `ctx.App.Version`. -/
  appVersion : String := ""
deriving Repr, DecidableEq

/-- The three environment variables read in the certmagic branch. -/
structure Env where
  cf_api_token : String := ""
  cf_account_id : String := ""
  kv_namespace_id : String := ""
deriving Repr, DecidableEq

/-- Outcomes of calls into external collaborators: `none` means the call
succeeded, `some msg` that it returned the error `msg`. -/
structure Ext where
  dnsProviderError : Option String := none
  tlsConfigError : Option String := none
  startError : Option String := none
  runError : Option String := none
  stopError : Option String := none
deriving Repr, DecidableEq

/-! ### Flag resolution (lines 63-94) -/

/-- The package variables after the flag-override block, together with the
derived `apiNamespace` (line 94). -/
structure Flags where
  name : String
  address : String
  handler : String
  resolverName : String
  enableRPC : Bool
  acmeProvider : String
  acmeChallengeProvider : String
  serviceType : String
  namespaceRoot : String
  apiNamespace : String
deriving Repr, DecidableEq

/-- Lines 66-94 of `run`: each flag overrides its package variable when
non-empty; the namespace flag is trimmed of a trailing `"."+Type` for
backwards compatibility, and `apiNamespace = Namespace + "." + Type`. -/
def resolveFlags (ctx : CliCtx) : Flags :=
  let name := if ctx.server_name.length > 0 then ctx.server_name else defaultName
  let address := if ctx.address.length > 0 then ctx.address else defaultAddress
  let handler := if ctx.handlerFlag.length > 0 then ctx.handlerFlag else defaultHandler
  let resolverName := if ctx.resolverFlag.length > 0 then ctx.resolverFlag else defaultResolver
  let enableRPC := match ctx.enable_rpc with
    | some b => b
    | none => false
  let acmeProvider := if ctx.acme_provider.length > 0 then ctx.acme_provider else defaultACMEProvider
  let serviceType := if ctx.typeFlag.length > 0 then ctx.typeFlag else defaultType
  let namespaceRoot :=
    if ctx.namespaceFlag.length > 0 then
      goTrimSuffix ctx.namespaceFlag ("." ++ serviceType)
    else defaultNamespace
  { name := name
    address := address
    handler := handler
    resolverName := resolverName
    enableRPC := enableRPC
    acmeProvider := acmeProvider
    acmeChallengeProvider := ctx.acmeChallengeProvider
    serviceType := serviceType
    namespaceRoot := namespaceRoot
    apiNamespace := namespaceRoot ++ "." ++ serviceType }

/-! ### Server options and the ACME branch (lines 102-170) -/

/-- A tier of the layered certmagic storage: `memory.NewSync()` or
`cfstore.NewStore(Token, Account, Namespace, CacheTTL)`.  `cacheTTLSeconds`
records the `time.Minute` TTL in seconds. -/
inductive SyncStore where
  | memorySync
  | cloudflareKV (token account namespaceId : String) (cacheTTLSeconds : Nat)
deriving Repr, DecidableEq

/-- `certmagic.NewStorage(memory.NewSync(), cloudflareStore)`: the ordered
list of tiers, fastest first. -/
structure CertmagicStorage where
  tiers : List SyncStore
deriving Repr, DecidableEq

/-- The cloudflare DNS challenge client configuration built from
`cloudflare.NewDefaultConfig()` with `AuthToken`/`ZoneToken` set. -/
structure ChallengeClient where
  authToken : String
  zoneToken : String
deriving Repr, DecidableEq

/-- The options passed to `certmagic.NewProvider` (lines 145-151). -/
structure CertmagicProvider where
  acceptToS : Bool
  ca : String
  cache : CertmagicStorage
  challenge : ChallengeClient
  onDemand : Bool
deriving Repr, DecidableEq

/-- The `server.Option` values `run` can append to `opts`. -/
inductive ServerOption where
  | enableACME (b : Bool)
  | acmeHostsOpt (hosts : List String)
  | acmeProviderAutocert
  | acmeProviderCertmagic (p : CertmagicProvider)
  | enableTLS (b : Bool)
  | tlsConfigOpt
  | enableCORS (b : Bool)
deriving Repr, DecidableEq

/-- The `log.Fatal`/early-return conditions of `run`. -/
inductive Fatal where
  | badChallengeProvider
  | missingCfCreds
  | missingKvNamespaceId
  | dnsProviderConstructionFailed (msg : String)
  | invalidAcmeProvider (name : String)
  | startFailed (msg : String)
  | runFailed (msg : String)
  | stopFailed (msg : String)
deriving Repr, DecidableEq

/-- Result of the option-building block: the accumulated options, a fatal
error if `log.Fatal` was reached, and whether the `enable_tls` branch
returned early (`fmt.Println` + `return`, line 160-161). -/
structure OptsOutcome where
  opts : List ServerOption
  fatal : Option Fatal
  earlyReturn : Bool
deriving Repr, DecidableEq

/-- Lines 105-170: the `enable_acme` / `enable_tls` / `enable_cors` option
construction, mirroring the source's branch structure statement by
statement. -/
def buildOpts (flags : Flags) (ctx : CliCtx) (env : Env) (ext : Ext) : OptsOutcome :=
  let afterAcme : OptsOutcome :=
    if ctx.enable_acme then
      let base := [ServerOption.enableACME true, ServerOption.acmeHostsOpt ctx.acmeHosts]
      if flags.acmeProvider = "autocert" then
        ⟨base ++ [ServerOption.acmeProviderAutocert], none, false⟩
      else if flags.acmeProvider = "certmagic" then
        if flags.acmeChallengeProvider ≠ "cloudflare" then
          ⟨base, some Fatal.badChallengeProvider, false⟩
        else
          let apiToken := env.cf_api_token
          let accountID := env.cf_account_id
          let kvID := env.kv_namespace_id
          if apiToken.length = 0 ∨ accountID.length = 0 then
            ⟨base, some Fatal.missingCfCreds, false⟩
          else if kvID.length = 0 then
            ⟨base, some Fatal.missingKvNamespaceId, false⟩
          else
            let cloudflareStore := SyncStore.cloudflareKV apiToken accountID kvID 60
            let storage : CertmagicStorage := ⟨[SyncStore.memorySync, cloudflareStore]⟩
            match ext.dnsProviderError with
            | some msg => ⟨base, some (Fatal.dnsProviderConstructionFailed msg), false⟩
            | none =>
              let provider : CertmagicProvider :=
                { acceptToS := true
                  ca := letsEncryptProductionCA
                  cache := storage
                  challenge := { authToken := apiToken, zoneToken := apiToken }
                  onDemand := false }
              ⟨base ++ [ServerOption.acmeProviderCertmagic provider], none, false⟩
      else
        ⟨base, some (Fatal.invalidAcmeProvider flags.acmeProvider), false⟩
    else if ctx.enable_tls then
      match ext.tlsConfigError with
      | some _ => ⟨[], none, true⟩
      | none => ⟨[ServerOption.enableTLS true, ServerOption.tlsConfigOpt], none, false⟩
    else
      ⟨[], none, false⟩
  if afterAcme.fatal.isSome ∨ afterAcme.earlyReturn then afterAcme
  else if ctx.enable_cors then
    ⟨afterAcme.opts ++ [ServerOption.enableCORS true], none, false⟩
  else afterAcme

/-! ### Router registrations (lines 176-338) -/

/-- The handler strategies of the `switch Handler` block. -/
inductive StrategyKind where
  | rpcStrategy
  | apiStrategy
  | eventStrategy
  | httpProxy
  | webStrategy
  | meta
deriving Repr, DecidableEq

/-- The handlers registered on the mux router. `rootVersion` carries the
`ctx.App.Version` value captured by the closure at line 188. -/
inductive RouteHandler where
  | statsHandler
  | rootVersion (appVersion : String)
  | favicon
  | rpcPassthrough
  | strategy (k : StrategyKind)
deriving Repr, DecidableEq

/-- How a handler is attached: `HandleFunc` registers an exact path,
`PathPrefix(...).Handler` a prefix pattern. -/
inductive RouteKind where
  | exact (path : String)
  | prefixPat (pattern : String)
deriving Repr, DecidableEq

structure Route where
  kind : RouteKind
  handler : RouteHandler
deriving Repr, DecidableEq

/-- Lines 265-338: the `switch Handler` statement, returning the strategy
handler and the pattern it is registered under ("http" and "proxy" use
`ProxyPath`, every other case `APIPath`). -/
def selectStrategy (handler : String) : StrategyKind × String :=
  if handler = "rpc" then (StrategyKind.rpcStrategy, APIPath)
  else if handler = "api" then (StrategyKind.apiStrategy, APIPath)
  else if handler = "event" then (StrategyKind.eventStrategy, APIPath)
  else if handler = "http" ∨ handler = "proxy" then (StrategyKind.httpProxy, ProxyPath)
  else if handler = "web" then (StrategyKind.webStrategy, APIPath)
  else (StrategyKind.meta, APIPath)

/-- Lines 176-338: the routes registered on the mux router `r`, in
registration order: optional `/stats`, the version handler at `/`,
`/favicon.ico`, the optional RPC passthrough at `RPCPath`, and the
strategy handler as a path prefix. -/
def buildRoutes (flags : Flags) (ctx : CliCtx) : List Route :=
  let r0 : List Route :=
    if ctx.enable_stats then [⟨RouteKind.exact "/stats", RouteHandler.statsHandler⟩] else []
  let r1 := r0 ++
    [⟨RouteKind.exact "/", RouteHandler.rootVersion ctx.appVersion⟩,
     ⟨RouteKind.exact "/favicon.ico", RouteHandler.favicon⟩]
  let r2 :=
    if flags.enableRPC then r1 ++ [⟨RouteKind.exact RPCPath, RouteHandler.rpcPassthrough⟩]
    else r1
  let sel := selectStrategy flags.handler
  r2 ++ [⟨RouteKind.prefixPat sel.2, RouteHandler.strategy sel.1⟩]

/-! ### Middleware wrapping (lines 340-344) -/

/-- The loop `for i := len(plugins); i > 0; i-- { h = plugins[i-1].Handler()(h) }`,
with the loop counter as fuel: at counter value `i+1` the plugin at index
`i` is applied.  A plugin is modelled by the `func(http.Handler) http.Handler`
its `Handler()` method returns. -/
def wrapLoop {H : Type _} (plugins : List (H → H)) : Nat → H → H
  | 0, h => h
  | Nat.succ i, h => wrapLoop plugins i (plugins.getD i id h)

/-- Lines 341-344: `plugins := append(Plugins(), plugin.Plugins()...)` —
gateway-local plugins first, then global ones — followed by the reverse
wrapping loop starting at `i = len(plugins)`. -/
def composeHandler {H : Type _} (localPlugins globalPlugins : List (H → H)) (h : H) : H :=
  let plugins := localPlugins ++ globalPlugins
  wrapLoop plugins plugins.length h

/-! ### Route matching and dispatch -/

/-- The character class `[a-zA-Z0-9]` of the `ProxyPath` template. -/
def isAlphanum (c : Char) : Bool :=
  ('a' ≤ c && c ≤ 'z') || ('A' ≤ c && c ≤ 'Z') || ('0' ≤ c && c ≤ '9')

/-- Modelled from the spec: the HTTP framework's routing engine is an
external collaborator (spec §1), so template matching is modelled from the
spec's route descriptions.  The template `"/\x7bservice:[a-zA-Z0-9]+\x7d"`
matches a path whose first segment (up to the next `/` or the end) is a
non-empty purely alphanumeric string. -/
def proxyPatternMatches (p : String) : Bool :=
  match p.data with
  | [] => false
  | c :: rest =>
    if c = '/' then
      let seg := rest.takeWhile (fun ch => ch != '/')
      decide (seg.length > 0) && seg.all isAlphanum
    else false

/-- Whether the path begins with `'/'` (every HTTP request path does). -/
def startsWithSlash (p : String) : Bool :=
  match p.data with
  | c :: _ => decide (c = '/')
  | [] => false

/-- Modelled from the spec: whether a request path matches a registration.
`HandleFunc` routes match the exact path; the prefix route at `APIPath`
(`"/"`) matches every path beginning with `/`, and the one at `ProxyPath`
matches per `proxyPatternMatches`. -/
def routeKindMatches (p : String) : RouteKind → Bool
  | RouteKind.exact q => decide (p = q)
  | RouteKind.prefixPat pat =>
    if pat = APIPath then startsWithSlash p
    else if pat = ProxyPath then proxyPatternMatches p
    else false

/-- Modelled from the spec: the router dispatches a path to the first
matching registration. -/
def dispatch (routes : List Route) (p : String) : Option RouteHandler :=
  (routes.find? (fun r => routeKindMatches p r.kind)).map Route.handler

/-! ### The version handler at `/` (lines 188-198) -/

/-- The body `fmt.Sprintf("{\"version\": \"%s\"}", ctx.App.Version)`. -/
def jsonVersion (v : String) : String :=
  "\x7b\"version\": \"" ++ v ++ "\"\x7d"

/-- The closure registered at `/`: an `OPTIONS` request returns before
anything is written; any other method gets the version JSON. -/
def rootHandlerBody (appVersion method : String) : String :=
  if method = "OPTIONS" then "" else jsonVersion appVersion

/-- Response bodies of the handlers served inside this file; `none` for
handlers that delegate to external components (stats, RPC passthrough,
the strategy handlers). -/
def serveLocal : RouteHandler → (method : String) → Option String
  | RouteHandler.rootVersion v, method => some (rootHandlerBody v method)
  | RouteHandler.favicon, _ => some ""
  | _, _ => none

/-! ### Lifecycle (lines 353-376) -/

/-- Observable lifecycle events: server construction (`httpapi.NewServer`,
line 353), successful `api.Start()` (the listening socket is bound),
`service.Run()` returning (the backend runtime has stopped), and successful
`api.Stop()`. -/
inductive Event where
  | serverCreated
  | serverStarted
  | serviceRunReturned
  | serverStopped
deriving Repr, DecidableEq

/-- Lines 353-376: create the server, start it, block in `service.Run()`,
then stop the server; each error goes to `log.Fatal`.  `serviceRunReturned`
is recorded whenever `service.Run()` returns, since the backend runtime has
stopped at that point whether or not it reports an error. -/
def lifecycle (ext : Ext) : List Event × Option Fatal :=
  let ev0 := [Event.serverCreated]
  match ext.startError with
  | some e => (ev0, some (Fatal.startFailed e))
  | none =>
    let ev1 := ev0 ++ [Event.serverStarted]
    match ext.runError with
    | some e => (ev1 ++ [Event.serviceRunReturned], some (Fatal.runFailed e))
    | none =>
      let ev2 := ev1 ++ [Event.serviceRunReturned]
      match ext.stopError with
      | some e => (ev2, some (Fatal.stopFailed e))
      | none => (ev2 ++ [Event.serverStopped], none)

/-! ### The whole of `run` -/

/-- Everything observable about one execution of `run`. -/
structure RunOutcome where
  flags : Flags
  opts : List ServerOption
  routes : List Route
  events : List Event
  fatal : Option Fatal
  earlyReturn : Bool
deriving Repr, DecidableEq

/-- The `run` function (lines 63-381): resolve flags, build server options
(`log.Fatal` aborts before any route is registered or the server is
created), register routes, then run the create/start/run/stop lifecycle. -/
def run (ctx : CliCtx) (env : Env) (ext : Ext) : RunOutcome :=
  let flags := resolveFlags ctx
  let oo := buildOpts flags ctx env ext
  if oo.fatal.isSome ∨ oo.earlyReturn then
    { flags := flags, opts := oo.opts, routes := [], events := [],
      fatal := oo.fatal, earlyReturn := oo.earlyReturn }
  else
    let routes := buildRoutes flags ctx
    let lc := lifecycle ext
    { flags := flags, opts := oo.opts, routes := routes, events := lc.1,
      fatal := lc.2, earlyReturn := false }

/-! ### Helper lemmas -/

theorem goTrimSuffixL_append_suffix (r sfx : List Char) :
    goTrimSuffixL (r ++ sfx) sfx = r := by
  unfold goTrimSuffixL
  rw [if_pos ((List.isSuffixOf_iff_suffix).mpr (List.suffix_append r sfx))]
  rw [List.length_append, Nat.add_sub_cancel, List.take_left]

theorem goTrimSuffixL_no_suffix (s sfx : List Char) (h : ¬ sfx.isSuffixOf s = true) :
    goTrimSuffixL s sfx = s := by
  unfold goTrimSuffixL
  rw [if_neg h]

theorem goTrimSuffix_append_suffix (r sfx : String) : goTrimSuffix (r ++ sfx) sfx = r := by
  unfold goTrimSuffix
  rw [String.data_append, goTrimSuffixL_append_suffix]

theorem goTrimSuffix_no_suffix (s sfx : String) (h : ¬ sfx.data.isSuffixOf s.data = true) :
    goTrimSuffix s sfx = s := by
  unfold goTrimSuffix
  rw [goTrimSuffixL_no_suffix s.data sfx.data h]

theorem resolveFlags_apiNamespace (ctx : CliCtx) :
    (resolveFlags ctx).apiNamespace =
      (let ty := if ctx.typeFlag.length > 0 then ctx.typeFlag else defaultType
       let ns := if ctx.namespaceFlag.length > 0 then
           goTrimSuffix ctx.namespaceFlag ("." ++ ty)
         else defaultNamespace
       ns ++ "." ++ ty) := rfl

theorem wrapLoop_eq_foldr_take {H : Type _} (plugins : List (H → H)) :
    ∀ i, i ≤ plugins.length → ∀ h : H,
      wrapLoop plugins i h = (plugins.take i).foldr (fun p acc => p acc) h := by
  intro i
  induction i with
  | zero => intro _ h; rfl
  | succ i ih =>
    intro hle h
    have hi : i < plugins.length := Nat.lt_of_succ_le hle
    have hgetD : plugins.getD i id = plugins[i] := by
      simp [List.getD, List.getElem?_eq_getElem hi]
    rw [wrapLoop, ih (Nat.le_of_lt hi), hgetD, List.take_succ,
        List.foldr_append, List.getElem?_eq_getElem hi]
    rfl

/-! ### C1 -/

/-- C1: gateway-local plugins and global plugins are concatenated in that
order, and the loop at lines 342-344 folds the concatenated sequence from
last to first, each step replacing the handler with `plugin.wrap(current)`;
hence the composed handler is the right fold of the wrappers over the inner
handler, and for a registration order [A, B, C] it is A (B (C inner)) with
the first-registered plugin outermost. -/
theorem C1_middleware_reverse_wrap {H : Type} (localPlugins globalPlugins : List (H → H))
    (inner : H) :
    composeHandler localPlugins globalPlugins inner =
      (localPlugins ++ globalPlugins).foldr (fun p acc => p acc) inner ∧
    (∀ A B C : H → H, ∀ ls gs : List (H → H), ls ++ gs = [A, B, C] →
      composeHandler ls gs inner = A (B (C inner))) := by
  constructor
  · unfold composeHandler
    rw [wrapLoop_eq_foldr_take _ _ (Nat.le_refl _), List.take_length]
  · intro A B C ls gs hsplit
    unfold composeHandler
    rw [hsplit]
    rfl

theorem C1_middleware_reverse_wrap_witness :
    composeHandler [fun n => n + 1] [fun n => 2 * n, fun n => n + 3] (0 : Nat) =
      (fun n : Nat => n + 1) ((fun n : Nat => 2 * n) ((fun n : Nat => n + 3) 0)) :=
  (C1_middleware_reverse_wrap [fun n => n + 1] [fun n => 2 * n, fun n => n + 3] 0).2
    _ _ _ _ _ rfl

/-! ### C2 -/

/-- C2 counterexample: with type "api", the input "x.api" + "." + "api"
resolves to final namespace "x.api.api" while the input "x.api" resolves to
"x.api" — the claim's equation fails when the root itself already ends in
"."+type, because `strings.TrimSuffix` removes only one occurrence. -/
theorem C2_counterexample :
    ¬ ((resolveFlags { namespaceFlag := "x.api" ++ "." ++ "api", typeFlag := "api" }).apiNamespace =
       (resolveFlags { namespaceFlag := "x.api", typeFlag := "api" }).apiNamespace) := by
  decide

/-- C2 amended: for any configured root R and type T (both non-empty),
provided R does not itself end in "."+T, constructing the process namespace
from the input R+"."+T yields the same final namespace as constructing it
from R: the "."+T suffix is stripped before T is re-appended. -/
theorem C2_namespace_idempotent (R T : String) (hR : R.length > 0) (hT : T.length > 0)
    (hs : ¬ (("." ++ T).data.isSuffixOf R.data = true)) :
    (resolveFlags { namespaceFlag := R ++ "." ++ T, typeFlag := T }).apiNamespace =
    (resolveFlags { namespaceFlag := R, typeFlag := T }).apiNamespace := by
  have hlen : (R ++ "." ++ T).length > 0 := by
    rw [String.length_append, String.length_append]
    omega
  rw [resolveFlags_apiNamespace, resolveFlags_apiNamespace]
  simp only [hT, hR, hlen, if_pos]
  rw [String.append_assoc R "." T, goTrimSuffix_append_suffix, goTrimSuffix_no_suffix R _ hs]

theorem C2_namespace_idempotent_witness :
    (resolveFlags { namespaceFlag := "go.micro" ++ "." ++ "api", typeFlag := "api" }).apiNamespace =
    (resolveFlags { namespaceFlag := "go.micro", typeFlag := "api" }).apiNamespace :=
  C2_namespace_idempotent "go.micro" "api" (by decide) (by decide) (by decide)

/-! ### Helper lemmas about `buildOpts` and `run` -/

theorem string_length_eq_zero (s : String) : s.length = 0 ↔ s = "" := by
  cases s with
  | mk d =>
    constructor
    · intro h
      have hd : d = [] := List.length_eq_zero.mp h
      subst hd
      rfl
    · intro h
      rw [h]
      rfl

theorem buildOpts_certmagic_missing_env (flags : Flags) (ctx : CliCtx) (env : Env) (ext : Ext)
    (hacme : ctx.enable_acme = true) (hprov : flags.acmeProvider = "certmagic")
    (henv : env.cf_api_token = "" ∨ env.cf_account_id = "" ∨ env.kv_namespace_id = "") :
    (buildOpts flags ctx env ext).fatal.isSome = true := by
  have d1 : ¬ (("certmagic" : String) = "autocert") := by decide
  by_cases hch : flags.acmeChallengeProvider = "cloudflare"
  · by_cases h1 : env.cf_api_token.length = 0 ∨ env.cf_account_id.length = 0
    · simp [buildOpts, hacme, hprov, d1, hch, h1]
    · have hkv : env.kv_namespace_id = "" := by
        rcases henv with h | h | h
        · exact absurd (Or.inl ((string_length_eq_zero _).mpr h)) h1
        · exact absurd (Or.inr ((string_length_eq_zero _).mpr h)) h1
        · exact h
      have hkv0 : env.kv_namespace_id.length = 0 := (string_length_eq_zero _).mpr hkv
      simp [buildOpts, hacme, hprov, d1, hch, h1, hkv0]
  · simp [buildOpts, hacme, hprov, d1, hch]

theorem buildOpts_invalid_provider (flags : Flags) (ctx : CliCtx) (env : Env) (ext : Ext)
    (hacme : ctx.enable_acme = true) (h1 : flags.acmeProvider ≠ "autocert")
    (h2 : flags.acmeProvider ≠ "certmagic") :
    buildOpts flags ctx env ext =
      ⟨[ServerOption.enableACME true, ServerOption.acmeHostsOpt ctx.acmeHosts],
        some (Fatal.invalidAcmeProvider flags.acmeProvider), false⟩ := by
  simp [buildOpts, hacme, h1, h2]

theorem buildOpts_bad_challenge (flags : Flags) (ctx : CliCtx) (env : Env) (ext : Ext)
    (hacme : ctx.enable_acme = true) (hprov : flags.acmeProvider = "certmagic")
    (hch : flags.acmeChallengeProvider ≠ "cloudflare") :
    buildOpts flags ctx env ext =
      ⟨[ServerOption.enableACME true, ServerOption.acmeHostsOpt ctx.acmeHosts],
        some Fatal.badChallengeProvider, false⟩ := by
  have d1 : ¬ (("certmagic" : String) = "autocert") := by decide
  simp [buildOpts, hacme, hprov, d1, hch]

theorem run_lifecycle (ctx : CliCtx) (env : Env) (ext : Ext)
    (hok : (buildOpts (resolveFlags ctx) ctx env ext).fatal = none)
    (her : (buildOpts (resolveFlags ctx) ctx env ext).earlyReturn = false) :
    (run ctx env ext).events = (lifecycle ext).1 ∧
    (run ctx env ext).fatal = (lifecycle ext).2 ∧
    (run ctx env ext).routes = buildRoutes (resolveFlags ctx) ctx := by
  refine ⟨?_, ?_, ?_⟩ <;> simp [run, hok, her]

/-! ### C3 -/

/-- C3: with ACME enabled and provider "certmagic", the absence (emptiness)
of any of CF_API_TOKEN, CF_ACCOUNT_ID or KV_NAMESPACE_ID makes startup hit
`log.Fatal`: the process aborts with no lifecycle event, so the gateway
server is never created, bound, or started. -/
theorem C3_certmagic_missing_env_fatal (ctx : CliCtx) (env : Env) (ext : Ext)
    (hacme : ctx.enable_acme = true) (hprov : ctx.acme_provider = "certmagic")
    (henv : env.cf_api_token = "" ∨ env.cf_account_id = "" ∨ env.kv_namespace_id = "") :
    (run ctx env ext).fatal.isSome = true ∧ (run ctx env ext).events = [] ∧
    Event.serverCreated ∉ (run ctx env ext).events ∧
    Event.serverStarted ∉ (run ctx env ext).events := by
  have hp : (resolveFlags ctx).acmeProvider = "certmagic" := by
    rw [show (resolveFlags ctx).acmeProvider =
      (if ctx.acme_provider.length > 0 then ctx.acme_provider else defaultACMEProvider) from rfl,
      hprov]
    decide
  have hf := buildOpts_certmagic_missing_env (resolveFlags ctx) ctx env ext hacme hp henv
  refine ⟨?_, ?_, ?_, ?_⟩ <;> simp [run, hf]

theorem C3_certmagic_missing_env_fatal_witness :
    (run { enable_acme := true, acme_provider := "certmagic" }
      { cf_api_token := "", cf_account_id := "acct", kv_namespace_id := "kv" } {}).fatal.isSome
      = true :=
  (C3_certmagic_missing_env_fatal { enable_acme := true, acme_provider := "certmagic" }
    { cf_api_token := "", cf_account_id := "acct", kv_namespace_id := "kv" } {}
    rfl rfl (Or.inl rfl)).1

/-! ### C4 -/

/-- C4 counterexample: in a fault-free execution of `run`, the observed
event order is: server created, server started, `service.Run()` returns
(the backend runtime has stopped), and only then is the gateway server
stopped — so the GatewayServer is not stopped before the backend runtime,
refuting the claimed shutdown order. -/
theorem C4_counterexample :
    (run {} {} {}).events = [Event.serverCreated, Event.serverStarted,
      Event.serviceRunReturned, Event.serverStopped] ∧
    ¬ ((run {} {} {}).events.indexOf Event.serverStopped <
       (run {} {} {}).events.indexOf Event.serviceRunReturned) := by
  decide

/-- C4 amended: at process shutdown the backend service runtime stops first
(`service.Run` returns) and the GatewayServer is stopped after it; the
start call, the run call and the stop call are each treated as fatal on
error (logged, and the process exits) rather than retried. -/
theorem C4_shutdown_order (ctx : CliCtx) (env : Env) (ext : Ext) (e : String)
    (hok : (buildOpts (resolveFlags ctx) ctx env ext).fatal = none)
    (her : (buildOpts (resolveFlags ctx) ctx env ext).earlyReturn = false) :
    (ext.startError = none → ext.runError = none → ext.stopError = none →
      (run ctx env ext).events = [Event.serverCreated, Event.serverStarted,
        Event.serviceRunReturned, Event.serverStopped] ∧ (run ctx env ext).fatal = none) ∧
    (ext.startError = some e → (run ctx env ext).fatal = some (Fatal.startFailed e)) ∧
    (ext.startError = none → ext.runError = some e →
      (run ctx env ext).fatal = some (Fatal.runFailed e)) ∧
    (ext.startError = none → ext.runError = none → ext.stopError = some e →
      (run ctx env ext).fatal = some (Fatal.stopFailed e)) := by
  obtain ⟨hev, hfa, -⟩ := run_lifecycle ctx env ext hok her
  refine ⟨?_, ?_, ?_, ?_⟩
  · intro h1 h2 h3
    constructor
    · rw [hev]
      simp [lifecycle, h1, h2, h3]
    · rw [hfa]
      simp [lifecycle, h1, h2, h3]
  · intro h1
    rw [hfa]
    simp [lifecycle, h1]
  · intro h1 h2
    rw [hfa]
    simp [lifecycle, h1, h2]
  · intro h1 h2 h3
    rw [hfa]
    simp [lifecycle, h1, h2, h3]

theorem C4_shutdown_order_witness :
    (run {} {} {}).events = [Event.serverCreated, Event.serverStarted,
      Event.serviceRunReturned, Event.serverStopped] ∧ (run {} {} {}).fatal = none :=
  (C4_shutdown_order {} {} {} "err" (by decide) (by decide)).1 rfl rfl rfl

/-! ### C5 -/

/-- C5: with the "certmagic" ACME strategy selected and its preconditions
met (cloudflare challenge provider, all three environment variables
present, DNS client construction succeeding), the provisioner is
constructed with exactly: accept-terms true, the fixed Let's Encrypt
production CA endpoint, a two-tier store layering the in-memory sync tier
over the cloudflare remote KV tier with a 60-second cache TTL, the
cloudflare DNS challenge client, and on-demand issuance disabled. -/
theorem C5_certmagic_provider_construction (flags : Flags) (ctx : CliCtx) (env : Env) (ext : Ext)
    (hacme : ctx.enable_acme = true) (hprov : flags.acmeProvider = "certmagic")
    (hch : flags.acmeChallengeProvider = "cloudflare")
    (htok : env.cf_api_token ≠ "") (hacc : env.cf_account_id ≠ "")
    (hkv : env.kv_namespace_id ≠ "") (hdns : ext.dnsProviderError = none) :
    buildOpts flags ctx env ext =
      ⟨[ServerOption.enableACME true, ServerOption.acmeHostsOpt ctx.acmeHosts,
        ServerOption.acmeProviderCertmagic
          { acceptToS := true
            ca := letsEncryptProductionCA
            cache := ⟨[SyncStore.memorySync,
              SyncStore.cloudflareKV env.cf_api_token env.cf_account_id env.kv_namespace_id 60]⟩
            challenge := ⟨env.cf_api_token, env.cf_api_token⟩
            onDemand := false }] ++
        (if ctx.enable_cors then [ServerOption.enableCORS true] else []), none, false⟩ := by
  have d1 : ¬ (("certmagic" : String) = "autocert") := by decide
  have h1 : ¬ (env.cf_api_token.length = 0 ∨ env.cf_account_id.length = 0) := by
    intro h
    rcases h with h | h
    · exact htok ((string_length_eq_zero _).mp h)
    · exact hacc ((string_length_eq_zero _).mp h)
  have h2 : ¬ (env.kv_namespace_id.length = 0) := fun h =>
    hkv ((string_length_eq_zero _).mp h)
  by_cases hc : ctx.enable_cors
  · simp [buildOpts, hacme, hprov, d1, hch, h1, h2, hdns, hc]
  · simp [buildOpts, hacme, hprov, d1, hch, h1, h2, hdns, hc]

theorem C5_certmagic_provider_construction_witness :
    buildOpts (resolveFlags { enable_acme := true, acme_provider := "certmagic" })
      { enable_acme := true, acme_provider := "certmagic" }
      { cf_api_token := "tok", cf_account_id := "acct", kv_namespace_id := "kv" } {} =
      ⟨[ServerOption.enableACME true, ServerOption.acmeHostsOpt [],
        ServerOption.acmeProviderCertmagic
          { acceptToS := true
            ca := letsEncryptProductionCA
            cache := ⟨[SyncStore.memorySync, SyncStore.cloudflareKV "tok" "acct" "kv" 60]⟩
            challenge := ⟨"tok", "tok"⟩
            onDemand := false }] ++
        (if ({} : CliCtx).enable_cors then [ServerOption.enableCORS true] else []),
        none, false⟩ :=
  C5_certmagic_provider_construction
    (resolveFlags { enable_acme := true, acme_provider := "certmagic" })
    { enable_acme := true, acme_provider := "certmagic" }
    { cf_api_token := "tok", cf_account_id := "acct", kv_namespace_id := "kv" } {}
    rfl (by decide) rfl (by decide) (by decide) (by decide) rfl

/-! ### C6 -/

/-- C6: with ACME enabled, an ACME provider name other than "autocert" or
"certmagic" is a fatal startup error, and so is (under "certmagic") a DNS
challenge provider other than "cloudflare": `run` logs the condition and
aborts immediately — no route is registered, no lifecycle event occurs, and
there is no recoverable fallback. -/
theorem C6_acme_provider_fatal (ctx : CliCtx) (env : Env) (ext : Ext)
    (hacme : ctx.enable_acme = true) :
    ((resolveFlags ctx).acmeProvider ≠ "autocert" →
     (resolveFlags ctx).acmeProvider ≠ "certmagic" →
      (run ctx env ext).fatal =
        some (Fatal.invalidAcmeProvider (resolveFlags ctx).acmeProvider) ∧
      (run ctx env ext).events = [] ∧ (run ctx env ext).routes = []) ∧
    ((resolveFlags ctx).acmeProvider = "certmagic" →
     (resolveFlags ctx).acmeChallengeProvider ≠ "cloudflare" →
      (run ctx env ext).fatal = some Fatal.badChallengeProvider ∧
      (run ctx env ext).events = [] ∧ (run ctx env ext).routes = []) := by
  constructor
  · intro h1 h2
    have hb := buildOpts_invalid_provider (resolveFlags ctx) ctx env ext hacme h1 h2
    refine ⟨?_, ?_, ?_⟩ <;> simp [run, hb]
  · intro h1 h2
    have hb := buildOpts_bad_challenge (resolveFlags ctx) ctx env ext hacme h1 h2
    refine ⟨?_, ?_, ?_⟩ <;> simp [run, hb]

theorem C6_acme_provider_fatal_witness :
    (run { enable_acme := true, acme_provider := "bogus" } {} {}).fatal =
      some (Fatal.invalidAcmeProvider
        (resolveFlags { enable_acme := true, acme_provider := "bogus" }).acmeProvider) :=
  ((C6_acme_provider_fatal { enable_acme := true, acme_provider := "bogus" } {} {} rfl).1
    (by decide) (by decide)).1

/-! ### Helper lemmas about matching and dispatch -/

theorem selectStrategy_pattern (hs : String) :
    (selectStrategy hs).2 = APIPath ∨ (selectStrategy hs).2 = ProxyPath := by
  unfold selectStrategy
  split_ifs <;> simp

theorem rpc_matches_strategy_prefix (hs : String) :
    routeKindMatches RPCPath (RouteKind.prefixPat (selectStrategy hs).2) = true := by
  rcases selectStrategy_pattern hs with hp | hp <;> rw [hp] <;> decide

theorem dropWhile_head_false {α : Type} (pred : α → Bool) :
    ∀ (l : List α) (d : α) (t : List α), l.dropWhile pred = d :: t → pred d = false := by
  intro l
  induction l with
  | nil =>
    intro d t h
    simp [List.dropWhile] at h
  | cons a as ih =>
    intro d t h
    rw [List.dropWhile_cons] at h
    by_cases ha : pred a
    · rw [if_pos ha] at h
      exact ih d t h
    · rw [if_neg ha] at h
      cases h
      simpa using ha

theorem alphanum_ne_slash (c : Char) (h : isAlphanum c = true) : (c != '/') = true := by
  by_cases hc : c = '/'
  · subst hc
    exact absurd h (by decide)
  · exact bne_iff_ne.mpr hc

theorem takeWhile_append_all {pred : Char → Bool} (seg rest : List Char)
    (h : ∀ c ∈ seg, pred c = true) :
    (seg ++ rest).takeWhile pred = seg ++ rest.takeWhile pred := by
  induction seg with
  | nil => simp
  | cons c cs ih =>
    have hc : pred c = true := h c (List.mem_cons_self c cs)
    simp only [List.cons_append, List.takeWhile_cons, hc, if_true]
    rw [ih (fun x hx => h x (List.mem_cons_of_mem c hx))]

theorem proxySegMatches_iff (cs : List Char) :
    ((cs.takeWhile (fun ch => ch != '/')).length > 0 ∧
      (cs.takeWhile (fun ch => ch != '/')).all isAlphanum = true) ↔
    ∃ seg rest : List Char, cs = seg ++ rest ∧ seg ≠ [] ∧ seg.all isAlphanum = true ∧
      (rest = [] ∨ ∃ t, rest = '/' :: t) := by
  constructor
  · rintro ⟨hlen, hall⟩
    refine ⟨cs.takeWhile (fun ch => ch != '/'), cs.dropWhile (fun ch => ch != '/'),
      (List.takeWhile_append_dropWhile (fun ch => ch != '/') cs).symm, ?_, hall, ?_⟩
    · intro hn
      rw [hn] at hlen
      simp at hlen
    · cases hd : cs.dropWhile (fun ch => ch != '/') with
      | nil => exact Or.inl rfl
      | cons d t =>
        right
        refine ⟨t, ?_⟩
        have hdf : (d != '/') = false := dropWhile_head_false (fun ch => ch != '/') cs d t hd
        by_cases hdd : d = '/'
        · rw [hdd]
        · rw [bne_iff_ne.mpr hdd] at hdf
          exact Bool.noConfusion hdf
  · rintro ⟨seg, rest, rfl, hne, hall, hrest⟩
    have hpass : ∀ c ∈ seg, (c != '/') = true := fun c hcm =>
      alphanum_ne_slash c (List.all_eq_true.mp hall c hcm)
    have htw : (seg ++ rest).takeWhile (fun ch => ch != '/') = seg := by
      rw [takeWhile_append_all seg rest hpass]
      rcases hrest with rfl | ⟨t, rfl⟩
      · simp
      · simp [List.takeWhile_cons]
    rw [htw]
    exact ⟨List.length_pos.mpr hne, hall⟩

theorem proxyPatternMatches_nil (p : String) (hp : p.data = []) :
    proxyPatternMatches p = false := by
  unfold proxyPatternMatches
  rw [hp]

theorem proxyPatternMatches_cons (p : String) (c : Char) (cs : List Char)
    (hp : p.data = c :: cs) :
    proxyPatternMatches p =
      (if c = '/' then
        decide ((cs.takeWhile (fun ch => ch != '/')).length > 0) &&
          (cs.takeWhile (fun ch => ch != '/')).all isAlphanum
       else false) := by
  unfold proxyPatternMatches
  rw [hp]

theorem proxyPatternMatches_iff (p : String) :
    proxyPatternMatches p = true ↔
      ∃ seg rest : List Char, p.data = '/' :: (seg ++ rest) ∧ seg ≠ [] ∧
        seg.all isAlphanum = true ∧ (rest = [] ∨ ∃ t, rest = '/' :: t) := by
  cases hp : p.data with
  | nil =>
    rw [proxyPatternMatches_nil p hp]
    refine iff_of_false (by simp) ?_
    rintro ⟨seg, rest, hdata, -, -, -⟩
    exact List.noConfusion hdata
  | cons c cs =>
    rw [proxyPatternMatches_cons p c cs hp]
    by_cases hc : c = '/'
    · subst hc
      rw [if_pos rfl, Bool.and_eq_true, decide_eq_true_eq, proxySegMatches_iff cs]
      constructor
      · rintro ⟨seg, rest, rfl, h2, h3, h4⟩
        exact ⟨seg, rest, rfl, h2, h3, h4⟩
      · rintro ⟨seg, rest, hdata, h2, h3, h4⟩
        injection hdata with hhead htail
        exact ⟨seg, rest, htail, h2, h3, h4⟩
    · rw [if_neg hc]
      refine iff_of_false (by simp) ?_
      rintro ⟨seg, rest, hdata, -, -, -⟩
      injection hdata with hhead htail
      exact hc hhead

theorem startsWithSlash_nil (p : String) (hp : p.data = []) : startsWithSlash p = false := by
  unfold startsWithSlash
  rw [hp]

theorem startsWithSlash_cons (p : String) (c : Char) (cs : List Char) (hp : p.data = c :: cs) :
    startsWithSlash p = decide (c = '/') := by
  unfold startsWithSlash
  rw [hp]

theorem startsWithSlash_iff (p : String) :
    startsWithSlash p = true ↔ ∃ t : List Char, p.data = '/' :: t := by
  cases hp : p.data with
  | nil =>
    rw [startsWithSlash_nil p hp]
    refine iff_of_false (by simp) ?_
    rintro ⟨t, ht⟩
    exact List.noConfusion ht
  | cons c cs =>
    rw [startsWithSlash_cons p c cs hp, decide_eq_true_eq]
    constructor
    · rintro rfl
      exact ⟨cs, rfl⟩
    · rintro ⟨t, ht⟩
      injection ht

theorem selectStrategy_proxyPath_iff (hs : String) :
    (selectStrategy hs).2 = ProxyPath ↔ (hs = "http" ∨ hs = "proxy") := by
  have hne : ¬ (APIPath = ProxyPath) := by decide
  unfold selectStrategy
  split_ifs with h1 h2 h3 h4 h5
  · subst h1
    decide
  · subst h2
    decide
  · subst h3
    decide
  · exact iff_of_true rfl h4
  · subst h5
    decide
  · exact iff_of_false hne h4

/-! ### C7 -/

/-- C7: the structured RPC passthrough handler is registered on the router
at `RPCPath` ("/rpc") if and only if the RPC-passthrough flag resolved to
true; when the flag is false, no route is registered at that path and a
request for "/rpc" dispatches to the active strategy handler like any
other path. -/
theorem C7_rpc_route_iff (ctx : CliCtx) (env : Env) (ext : Ext)
    (hok : (buildOpts (resolveFlags ctx) ctx env ext).fatal = none)
    (her : (buildOpts (resolveFlags ctx) ctx env ext).earlyReturn = false) :
    ((⟨RouteKind.exact RPCPath, RouteHandler.rpcPassthrough⟩ : Route) ∈ (run ctx env ext).routes
      ↔ (resolveFlags ctx).enableRPC = true) ∧
    ((resolveFlags ctx).enableRPC = false →
      dispatch (run ctx env ext).routes RPCPath =
        some (RouteHandler.strategy (selectStrategy (resolveFlags ctx).handler).1)) := by
  obtain ⟨-, -, hr⟩ := run_lifecycle ctx env ext hok her
  rw [hr]
  have e1 : routeKindMatches RPCPath (RouteKind.exact "/stats") = false := by decide
  have e2 : routeKindMatches RPCPath (RouteKind.exact "/") = false := by decide
  have e3 : routeKindMatches RPCPath (RouteKind.exact "/favicon.ico") = false := by decide
  have hm := rpc_matches_strategy_prefix (resolveFlags ctx).handler
  constructor
  · by_cases hrpc : (resolveFlags ctx).enableRPC = true <;>
      by_cases hst : ctx.enable_stats = true <;>
        simp [buildRoutes, hrpc, hst]
  · intro hrpc
    have hrpc' : ¬ ((resolveFlags ctx).enableRPC = true) := by
      rw [hrpc]
      exact Bool.false_ne_true
    by_cases hst : ctx.enable_stats = true <;>
      simp [buildRoutes, dispatch, hrpc', hst, e1, e2, e3, hm]

theorem C7_rpc_route_iff_witness :
    dispatch (run {} {} {}).routes RPCPath =
      some (RouteHandler.strategy (selectStrategy (resolveFlags ({} : CliCtx)).handler).1) :=
  (C7_rpc_route_iff {} {} {} (by decide) (by decide)).2 (by decide)

/-! ### C8 -/

/-- C8: a request for path "/" dispatches to the version handler, which for
any non-OPTIONS method responds with the body
`{"version": "<app version>"}`; in particular with version "1.2.3" the body
is exactly `{"version": "1.2.3"}`. -/
theorem C8_root_version_response (ctx : CliCtx) (env : Env) (ext : Ext) (m : String)
    (hok : (buildOpts (resolveFlags ctx) ctx env ext).fatal = none)
    (her : (buildOpts (resolveFlags ctx) ctx env ext).earlyReturn = false)
    (hm : m ≠ "OPTIONS") :
    dispatch (run ctx env ext).routes "/" = some (RouteHandler.rootVersion ctx.appVersion) ∧
    serveLocal (RouteHandler.rootVersion ctx.appVersion) m = some (jsonVersion ctx.appVersion) ∧
    jsonVersion "1.2.3" = "\x7b\"version\": \"1.2.3\"\x7d" := by
  obtain ⟨-, -, hr⟩ := run_lifecycle ctx env ext hok her
  rw [hr]
  have e1 : routeKindMatches "/" (RouteKind.exact "/stats") = false := by decide
  have e2 : routeKindMatches "/" (RouteKind.exact "/") = true := by decide
  refine ⟨?_, ?_, by decide⟩
  · by_cases hrpc : (resolveFlags ctx).enableRPC = true <;>
      by_cases hst : ctx.enable_stats = true <;>
        simp [buildRoutes, dispatch, hrpc, hst, e1, e2]
  · show some (rootHandlerBody ctx.appVersion m) = some (jsonVersion ctx.appVersion)
    unfold rootHandlerBody
    rw [if_neg hm]

theorem C8_root_version_response_witness :
    dispatch (run {} {} {}).routes "/" =
      some (RouteHandler.rootVersion ({} : CliCtx).appVersion) ∧
    serveLocal (RouteHandler.rootVersion ({} : CliCtx).appVersion) "GET" =
      some (jsonVersion ({} : CliCtx).appVersion) ∧
    jsonVersion "1.2.3" = "\x7b\"version\": \"1.2.3\"\x7d" :=
  C8_root_version_response {} {} {} "GET" (by decide) (by decide) (by decide)

/-! ### C9 -/

/-- C9: a request for path "/" whose method is OPTIONS dispatches to the
version handler, which returns immediately without writing anything: the
response body is empty and the version JSON is not emitted. -/
theorem C9_root_options_no_body (ctx : CliCtx) (env : Env) (ext : Ext)
    (hok : (buildOpts (resolveFlags ctx) ctx env ext).fatal = none)
    (her : (buildOpts (resolveFlags ctx) ctx env ext).earlyReturn = false) :
    dispatch (run ctx env ext).routes "/" = some (RouteHandler.rootVersion ctx.appVersion) ∧
    serveLocal (RouteHandler.rootVersion ctx.appVersion) "OPTIONS" = some "" := by
  obtain ⟨-, -, hr⟩ := run_lifecycle ctx env ext hok her
  rw [hr]
  have e1 : routeKindMatches "/" (RouteKind.exact "/stats") = false := by decide
  have e2 : routeKindMatches "/" (RouteKind.exact "/") = true := by decide
  constructor
  · by_cases hrpc : (resolveFlags ctx).enableRPC = true <;>
      by_cases hst : ctx.enable_stats = true <;>
        simp [buildRoutes, dispatch, hrpc, hst, e1, e2]
  · rfl

theorem C9_root_options_no_body_witness :
    dispatch (run {} {} {}).routes "/" =
      some (RouteHandler.rootVersion ({} : CliCtx).appVersion) ∧
    serveLocal (RouteHandler.rootVersion ({} : CliCtx).appVersion) "OPTIONS" = some "" :=
  C9_root_options_no_body {} {} {} (by decide) (by decide)

/-! ### C10 -/

/-- C10: the strategy handler for "http"/"proxy" is registered under the
`ProxyPath` pattern and every other strategy under the root prefix
`APIPath` ("/"); the registered prefix route is present in the final route
list; the `ProxyPath` pattern matches exactly the paths whose first segment
is a non-empty purely alphanumeric string, while the `APIPath` prefix
matches every path (beginning with "/"). -/
theorem C10_proxy_registration (ctx : CliCtx) (env : Env) (ext : Ext) (p : String)
    (hok : (buildOpts (resolveFlags ctx) ctx env ext).fatal = none)
    (her : (buildOpts (resolveFlags ctx) ctx env ext).earlyReturn = false) :
    ((⟨RouteKind.prefixPat (selectStrategy (resolveFlags ctx).handler).2,
        RouteHandler.strategy (selectStrategy (resolveFlags ctx).handler).1⟩ : Route)
      ∈ (run ctx env ext).routes) ∧
    ((selectStrategy (resolveFlags ctx).handler).2 = ProxyPath ↔
      ((resolveFlags ctx).handler = "http" ∨ (resolveFlags ctx).handler = "proxy")) ∧
    ((selectStrategy (resolveFlags ctx).handler).2 = APIPath ∨
     (selectStrategy (resolveFlags ctx).handler).2 = ProxyPath) ∧
    (routeKindMatches p (RouteKind.prefixPat ProxyPath) = true ↔
      ∃ seg rest : List Char, p.data = '/' :: (seg ++ rest) ∧ seg ≠ [] ∧
        seg.all isAlphanum = true ∧ (rest = [] ∨ ∃ t, rest = '/' :: t)) ∧
    (routeKindMatches p (RouteKind.prefixPat APIPath) = true ↔
      ∃ t : List Char, p.data = '/' :: t) := by
  obtain ⟨-, -, hr⟩ := run_lifecycle ctx env ext hok her
  have hm1 : routeKindMatches p (RouteKind.prefixPat ProxyPath) = proxyPatternMatches p := by
    show (if ProxyPath = APIPath then startsWithSlash p
          else if ProxyPath = ProxyPath then proxyPatternMatches p else false) =
      proxyPatternMatches p
    rw [if_neg (by decide : ¬ (ProxyPath = APIPath)), if_pos rfl]
  have hm2 : routeKindMatches p (RouteKind.prefixPat APIPath) = startsWithSlash p := by
    show (if APIPath = APIPath then startsWithSlash p
          else if APIPath = ProxyPath then proxyPatternMatches p else false) =
      startsWithSlash p
    rw [if_pos rfl]
  refine ⟨?_, selectStrategy_proxyPath_iff _, selectStrategy_pattern _, ?_, ?_⟩
  · rw [hr]
    by_cases hrpc : (resolveFlags ctx).enableRPC = true <;>
      by_cases hst : ctx.enable_stats = true <;>
        simp [buildRoutes, hrpc, hst]
  · rw [hm1]
    exact proxyPatternMatches_iff p
  · rw [hm2]
    exact startsWithSlash_iff p

theorem C10_proxy_registration_witness :
    routeKindMatches "/greeter/hello" (RouteKind.prefixPat ProxyPath) = true ↔
      ∃ seg rest : List Char, ("/greeter/hello" : String).data = '/' :: (seg ++ rest) ∧
        seg ≠ [] ∧ seg.all isAlphanum = true ∧ (rest = [] ∨ ∃ t, rest = '/' :: t) :=
  let h := C10_proxy_registration { handlerFlag := "http" } {} {} "/greeter/hello"
    (by decide) (by decide)
  h.2.2.2.1

end MicroApi
